import Mathlib

/-!
Verification of the DeFiLlama MCP proxy server (`src/main.py`, with the
upstream-fetch contract shared by `src/defillama.py`).

The embedding models:
  * parsed JSON values (`JsonValue`), with Python `dict` semantics for
    `.get`, subscripting and truthiness;
  * Python exceptions (`PyError`) raised by attribute access and slicing
    on values of the wrong shape, rendered with CPython's messages;
  * `json.dumps(result, indent=2)` (`jsonDumps`);
  * the upstream fetcher `make_request`, which collapses every failure
    cause (HTTP status of 400 or more, network error, malformed JSON body,
    any other exception) to `None`;
  * the six tool handlers and the JSON-RPC dispatcher
    `handle_mcp_request`, including its top-level `except` clause.

A fetch oracle `String → FetchOutcome` stands for the network: it maps a
URL to what the single outbound GET for that URL produces.
-/

inductive JsonValue where
  | null : JsonValue
  | bool (b : Bool) : JsonValue
  | num (n : Int) : JsonValue
  | str (s : String) : JsonValue
  | arr (xs : List JsonValue) : JsonValue
  | obj (kvs : List (String × JsonValue)) : JsonValue

/-- A single-quote character, used when rendering CPython error messages
and `repr`-style output. -/
def apos : String := String.singleton (Char.ofNat 39)

/-- First-match key lookup in an object's field list (parsed-JSON dicts
have distinct keys, so this agrees with Python `dict` lookup). -/
def jlookup : List (String × JsonValue) → String → Option JsonValue
  | [], _ => none
  | (k, v) :: kvs, key => if k = key then some v else jlookup kvs key

/-- Lookup on a value known to be an object; `none` on any other shape.
Used only in theorem statements, not by the embedded code. -/
def jfield : JsonValue → String → Option JsonValue
  | .obj kvs, k => jlookup kvs k
  | _, _ => none

/-- Python type name of a parsed-JSON value, as it appears in CPython
error messages. -/
def pyTypeName : JsonValue → String
  | .null => "NoneType"
  | .bool _ => "bool"
  | .num _ => "int"
  | .str _ => "str"
  | .arr _ => "list"
  | .obj _ => "dict"

/-- Python truthiness of a parsed-JSON value (`bool(x)`). -/
def truthy : JsonValue → Bool
  | .null => false
  | .bool b => b
  | .num n => n != 0
  | .str s => s != ""
  | .arr xs => !xs.isEmpty
  | .obj kvs => !kvs.isEmpty

/-- Python `==` between a parsed-JSON value and a string literal. -/
def isStr (v : JsonValue) (s : String) : Bool :=
  match v with
  | .str t => t == s
  | _ => false

mutual
/-- Python `repr` of a parsed-JSON value (containers use single-quoted
strings, as CPython prints them). -/
def pyRepr : JsonValue → String
  | .null => "None"
  | .bool true => "True"
  | .bool false => "False"
  | .num n => toString n
  | .str s => apos ++ s ++ apos
  | .arr xs => "[" ++ pyReprList xs ++ "]"
  | .obj kvs => "\x7b" ++ pyReprObj kvs ++ "\x7d"
def pyReprList : List JsonValue → String
  | [] => ""
  | [x] => pyRepr x
  | x :: xs => pyRepr x ++ ", " ++ pyReprList xs
def pyReprObj : List (String × JsonValue) → String
  | [] => ""
  | [(k, v)] => apos ++ k ++ apos ++ ": " ++ pyRepr v
  | (k, v) :: kvs => apos ++ k ++ apos ++ ": " ++ pyRepr v ++ ", " ++ pyReprObj kvs
end

/-- Python `str(x)` as used by f-string interpolation: the string itself
for strings, `repr`-style rendering otherwise (`None`, numbers, ...). -/
def pyFormat : JsonValue → String
  | .str s => s
  | v => pyRepr v

/-- Exceptions the embedded Python code can raise, with the data needed
to reproduce `str(e)`. -/
inductive PyError where
  | attributeError (tyName attrName : String)
  | typeErrorUnhashableSlice
  | typeErrorNotSubscriptable (tyName : String)
  | keyError (key : String)
  | jsonDecodeError

/-- CPython's `str(e)` for each modelled exception. -/
def pyErrMsg : PyError → String
  | .attributeError ty attr =>
      apos ++ ty ++ apos ++ " object has no attribute " ++ apos ++ attr ++ apos
  | .typeErrorUnhashableSlice => "unhashable type: " ++ apos ++ "slice" ++ apos
  | .typeErrorNotSubscriptable ty => apos ++ ty ++ apos ++ " object is not subscriptable"
  | .keyError key => apos ++ key ++ apos
  | .jsonDecodeError => "Expecting value: line 1 column 1 (char 0)"

/-- Python `x.get(key)`: `None` for an absent key, `AttributeError` when
`x` is not a dict. -/
def pyGet : JsonValue → String → Except PyError JsonValue
  | .obj kvs, key => .ok ((jlookup kvs key).getD .null)
  | v, _ => .error (.attributeError (pyTypeName v) "get")

/-- Python `x.get(key, default)`: the stored value (even `None`) when the
key is present, the default when absent, `AttributeError` when `x` is not
a dict. -/
def pyGetD : JsonValue → String → JsonValue → Except PyError JsonValue
  | .obj kvs, key, dflt => .ok ((jlookup kvs key).getD dflt)
  | v, _, _ => .error (.attributeError (pyTypeName v) "get")

/-- Python `x[:n]`: truncates lists and strings, raises `TypeError`
(`unhashable type: slice` for dicts, `not subscriptable` otherwise) on
any other shape. -/
def pySlice : JsonValue → Nat → Except PyError JsonValue
  | .arr xs, n => .ok (.arr (xs.take n))
  | .str s, n => .ok (.str (String.mk (s.data.take n)))
  | .obj _, _ => .error .typeErrorUnhashableSlice
  | v, _ => .error (.typeErrorNotSubscriptable (pyTypeName v))

/-- Two-space indentation padding for `jsonDumps`. -/
def pad (n : Nat) : String := String.pushn "" (Char.ofNat 32) n

/-- Lower-case hexadecimal digit. -/
def hexDigit (n : Nat) : Char := if n < 10 then Char.ofNat (48 + n) else Char.ofNat (87 + n)

/-- Four lower-case hexadecimal digits. -/
def hex4 (n : Nat) : String :=
  String.mk [hexDigit (n / 4096 % 16), hexDigit (n / 256 % 16), hexDigit (n / 16 % 16), hexDigit (n % 16)]

/-- A `\uXXXX` escape. -/
def uEsc (n : Nat) : String := "\\u" ++ hex4 n

/-- `json.dumps` escaping of one character (`ensure_ascii=True`): short
escapes for the usual control characters, `\uXXXX` (with surrogate pairs
beyond the BMP) for other control and non-ASCII characters. -/
def escapeChar (c : Char) : String :=
  if c = Char.ofNat 34 then "\\\""
  else if c = Char.ofNat 92 then "\\\\"
  else if c = Char.ofNat 10 then "\\n"
  else if c = Char.ofNat 9 then "\\t"
  else if c = Char.ofNat 13 then "\\r"
  else if c = Char.ofNat 8 then "\\b"
  else if c = Char.ofNat 12 then "\\f"
  else if c.toNat < 32 || c.toNat > 126 then
    if c.toNat < 65536 then uEsc c.toNat
    else uEsc (55296 + (c.toNat - 65536) / 1024) ++ uEsc (56320 + (c.toNat - 65536) % 1024)
  else String.singleton c

/-- `json.dumps` rendering of a string literal. -/
def jsonQuote (s : String) : String := "\"" ++ String.join (s.data.map escapeChar) ++ "\""

mutual
/-- `json.dumps(v, indent=2)` at nesting level `lvl`. -/
def jsonDumpsV : JsonValue → Nat → String
  | .null, _ => "null"
  | .bool true, _ => "true"
  | .bool false, _ => "false"
  | .num n, _ => toString n
  | .str s, _ => jsonQuote s
  | .arr [], _ => "[]"
  | .arr (x :: xs), lvl =>
      "[\n" ++ pad (2 * (lvl + 1)) ++ jsonDumpsV x (lvl + 1) ++ jsonDumpsArr xs (lvl + 1)
        ++ "\n" ++ pad (2 * lvl) ++ "]"
  | .obj [], _ => "\x7b\x7d"
  | .obj ((k, v) :: kvs), lvl =>
      "\x7b\n" ++ pad (2 * (lvl + 1)) ++ jsonQuote k ++ ": " ++ jsonDumpsV v (lvl + 1)
        ++ jsonDumpsObj kvs (lvl + 1) ++ "\n" ++ pad (2 * lvl) ++ "\x7d"
def jsonDumpsArr : List JsonValue → Nat → String
  | [], _ => ""
  | x :: xs, lvl => ",\n" ++ pad (2 * lvl) ++ jsonDumpsV x lvl ++ jsonDumpsArr xs lvl
def jsonDumpsObj : List (String × JsonValue) → Nat → String
  | [], _ => ""
  | (k, v) :: kvs, lvl =>
      ",\n" ++ pad (2 * lvl) ++ jsonQuote k ++ ": " ++ jsonDumpsV v lvl ++ jsonDumpsObj kvs lvl
end

/-- `json.dumps(v, indent=2)`, as the dispatcher serializes handler
output. -/
def jsonDumps (v : JsonValue) : String := jsonDumpsV v 0

/-- What the single outbound HTTP GET for a URL produces: a response with
a status code and a body (`none` = the body is not valid JSON), a network
or connection error, or any other exception inside the request. -/
inductive FetchOutcome where
  | response (status : Nat) (body : Option JsonValue)
  | networkError
  | otherError

/-- The exception categories of the `try` body of `make_request`
(`httpx.HTTPStatusError` from `raise_for_status`, `httpx.RequestError`,
`json.JSONDecodeError` from `response.json()`, anything else) — the four
`except` arms of `src/defillama.py`, all collapsed by both copies. -/
inductive FetchExn where
  | httpStatusError (status : Nat)
  | requestError
  | jsonDecodeError
  | unexpectedError

/-- The `try` body of `make_request`: `response.raise_for_status()` then
`response.json()`. -/
def attempt_request : FetchOutcome → Except FetchExn JsonValue
  | .response status body =>
      if 400 ≤ status then .error (.httpStatusError status)
      else
        match body with
        | some v => .ok v
        | none => .error .jsonDecodeError
  | .networkError => .error .requestError
  | .otherError => .error .unexpectedError

/-- `make_request`: every exception from the `try` body is caught and
turned into `None`. -/
def make_request (fetch : String → FetchOutcome) (url : String) : Option JsonValue :=
  match attempt_request (fetch url) with
  | .ok v => some v
  | .error _ => none

/-- An outcome on which the fetch fails (HTTP status of 400 or more,
network error, malformed body, other exception). -/
def isFetchFailure : FetchOutcome → Bool
  | .response status body => decide (400 ≤ status) || body.isNone
  | .networkError => true
  | .otherError => true

def DEFI_API_BASE : String := "https://api.llama.fi"

def COIN_API_BASE : String := "https://coins.llama.fi"

def YIELDS_API_BASE : String := "https://yields.llama.fi"

/-- `get_protocols`: fetch `/protocols`, truncate to the first 20. -/
def get_protocols (fetch : String → FetchOutcome) : Except PyError JsonValue := do
  let url := DEFI_API_BASE ++ "/protocols"
  match make_request fetch url with
  | none => pure (.obj [("error", .str "Failed to fetch protocols")])
  | some data => do
    let sliced ← pySlice data 20
    pure (.obj [("protocols", sliced)])

/-- `get_protocol_tvl(protocol)`: required-argument check, fetch
`/protocol/{protocol}`, reshape into the TVL/metadata envelope. -/
def get_protocol_tvl (fetch : String → FetchOutcome) (protocol : JsonValue) :
    Except PyError JsonValue := do
  if !truthy protocol then
    pure (.obj [("error", .str "Protocol name is required")])
  else
    let url := DEFI_API_BASE ++ "/protocol/" ++ pyFormat protocol
    match make_request fetch url with
    | none => pure (.obj [("error", .str ("Failed to fetch TVL for protocol: " ++ pyFormat protocol))])
    | some data => do
      let cct ← pyGetD data "currentChainTvls" (.obj [])
      let nm ← pyGet data "name"
      let sym ← pyGet data "symbol"
      let urlv ← pyGet data "url"
      let desc ← pyGet data "description"
      let chainv ← pyGet data "chain"
      let logo ← pyGet data "logo"
      let cat ← pyGet data "category"
      pure (.obj [
        ("protocol", protocol),
        ("current_chain_tvls", cct),
        ("metadata", .obj [
          ("name", nm), ("symbol", sym), ("url", urlv), ("description", desc),
          ("chain", chainv), ("logo", logo), ("category", cat)])])

/-- `get_chain_tvl(chain)`: required-argument check, fetch
`/v2/historicalChainTvl/{chain}`, truncate to the first 30. -/
def get_chain_tvl (fetch : String → FetchOutcome) (chain : JsonValue) :
    Except PyError JsonValue := do
  if !truthy chain then
    pure (.obj [("error", .str "Chain name is required")])
  else
    let url := DEFI_API_BASE ++ "/v2/historicalChainTvl/" ++ pyFormat chain
    match make_request fetch url with
    | none => pure (.obj [("error", .str ("Failed to fetch TVL for chain: " ++ pyFormat chain))])
    | some data => do
      let sliced ← pySlice data 30
      pure (.obj [("chain", chain), ("tvl_data", sliced)])

/-- `get_token_prices(token)`: required-argument check, fetch
`/prices/current/{token}` from the coins host, raw passthrough. -/
def get_token_prices (fetch : String → FetchOutcome) (token : JsonValue) :
    Except PyError JsonValue := do
  if !truthy token then
    pure (.obj [("error", .str "Token identifier is required")])
  else
    let url := COIN_API_BASE ++ "/prices/current/" ++ pyFormat token
    match make_request fetch url with
    | none => pure (.obj [("error", .str ("Failed to fetch price for token: " ++ pyFormat token))])
    | some data => pure (.obj [("token", token), ("price_data", data)])

/-- `get_pools`: fetch `/pools` from the yields host; if the value is a
dict containing a `data` key, truncate that; else truncate only when the
value is a list, passing any other shape through unchanged. -/
def get_pools (fetch : String → FetchOutcome) : Except PyError JsonValue := do
  let url := YIELDS_API_BASE ++ "/pools"
  match make_request fetch url with
  | none => pure (.obj [("error", .str "Failed to fetch pools")])
  | some data =>
    match data with
    | .obj kvs =>
      match jlookup kvs "data" with
      | some d => do
        let sliced ← pySlice d 30
        pure (.obj [("pools", sliced)])
      | none => pure (.obj [("pools", data)])
    | .arr xs => pure (.obj [("pools", .arr (xs.take 30))])
    | other => pure (.obj [("pools", other)])

/-- `get_pool_tvl(pool)`: required-argument check, fetch `/chart/{pool}`
from the yields host; same dict-with-`data`-key shape sniffing as
`get_pools`, with a `status` passthrough on the dict branch. -/
def get_pool_tvl (fetch : String → FetchOutcome) (pool : JsonValue) :
    Except PyError JsonValue := do
  if !truthy pool then
    pure (.obj [("error", .str "Pool ID is required")])
  else
    let url := YIELDS_API_BASE ++ "/chart/" ++ pyFormat pool
    match make_request fetch url with
    | none => pure (.obj [("error", .str ("Failed to fetch pool data for: " ++ pyFormat pool))])
    | some data =>
      match data with
      | .obj kvs =>
        match jlookup kvs "data" with
        | some d => do
          let sliced ← pySlice d 30
          let status ← pyGet data "status"
          pure (.obj [("pool_id", pool), ("chart_data", sliced), ("status", status)])
        | none => pure (.obj [("pool_id", pool), ("data", data)])
      | .arr xs => pure (.obj [("pool_id", pool), ("data", .arr (xs.take 30))])
      | other => pure (.obj [("pool_id", pool), ("data", other)])

/-- The static result of the `initialize` method (also served on `GET /`). -/
def initResult : JsonValue :=
  .obj [
    ("protocolVersion", .str "2024-11-05"),
    ("capabilities", .obj [("tools", .obj [])]),
    ("serverInfo", .obj [("name", .str "defillama-mcp"), ("version", .str "1.0.0")])]

/-- The static tool-descriptor table returned by `tools/list`. -/
def toolsList : List JsonValue := [
  .obj [
    ("name", .str "get_protocols"),
    ("description", .str "Retrieve a list of all DeFi protocols from DeFi Llama, limited to the first 20 results"),
    ("inputSchema", .obj [("type", .str "object"), ("properties", .obj [])])],
  .obj [
    ("name", .str "get_protocol_tvl"),
    ("description", .str "Get Total Value Locked (TVL) information for a specific DeFi protocol"),
    ("inputSchema", .obj [
      ("type", .str "object"),
      ("properties", .obj [
        ("protocol", .obj [
          ("type", .str "string"),
          ("description", .str ("Protocol name (e.g., " ++ apos ++ "aave" ++ apos ++ ", " ++ apos ++ "uniswap" ++ apos ++ ")"))])]),
      ("required", .arr [.str "protocol"])])],
  .obj [
    ("name", .str "get_chain_tvl"),
    ("description", .str "Retrieve historical Total Value Locked (TVL) data for a specific blockchain"),
    ("inputSchema", .obj [
      ("type", .str "object"),
      ("properties", .obj [
        ("chain", .obj [
          ("type", .str "string"),
          ("description", .str ("Chain name (e.g., " ++ apos ++ "ethereum" ++ apos ++ ", " ++ apos ++ "bsc" ++ apos ++ ")"))])]),
      ("required", .arr [.str "chain"])])],
  .obj [
    ("name", .str "get_token_prices"),
    ("description", .str "Get current price information for a specific token"),
    ("inputSchema", .obj [
      ("type", .str "object"),
      ("properties", .obj [
        ("token", .obj [
          ("type", .str "string"),
          ("description", .str ("Token identifier (e.g., " ++ apos ++ "ethereum:0xc02aaa39b223fe8d0a0e5c4f27ead9083c756cc2" ++ apos ++ ")"))])]),
      ("required", .arr [.str "token"])])],
  .obj [
    ("name", .str "get_pools"),
    ("description", .str "Retrieve a list of all liquidity pools from DeFi Llama, limited to the first 30 results"),
    ("inputSchema", .obj [("type", .str "object"), ("properties", .obj [])])],
  .obj [
    ("name", .str "get_pool_tvl"),
    ("description", .str "Get detailed information about a specific liquidity pool by its ID"),
    ("inputSchema", .obj [
      ("type", .str "object"),
      ("properties", .obj [
        ("pool", .obj [("type", .str "string"), ("description", .str "Pool ID")])]),
      ("required", .arr [.str "pool"])])]]

/-- A JSON-RPC success response. -/
def rpcResult (rid payload : JsonValue) : JsonValue :=
  .obj [("jsonrpc", .str "2.0"), ("id", rid), ("result", payload)]

/-- A JSON-RPC error response. -/
def rpcError (rid : JsonValue) (code : Int) (msg : String) : JsonValue :=
  .obj [("jsonrpc", .str "2.0"), ("id", rid),
        ("error", .obj [("code", .num code), ("message", .str msg)])]

/-- The `tools/call` success wrapper:
`result.content = [ (type "text", text json.dumps(result, indent=2)) ]`. -/
def toolCallResult (rid result : JsonValue) : JsonValue :=
  rpcResult rid (.obj [("content", .arr [.obj [("type", .str "text"), ("text", .str (jsonDumps result))]])])

/-- The `try` body of `handle_mcp_request`: extract `method`, `params`
and `id` from the parsed body (`none` = `request.json()` raised), then
route `initialize`, `tools/list` and `tools/call`. -/
def handle_core (fetch : String → FetchOutcome) : Option JsonValue → Except PyError JsonValue
  | none => .error .jsonDecodeError
  | some b => do
    let method ← pyGet b "method"
    let params ← pyGetD b "params" (.obj [])
    let request_id ← pyGet b "id"
    if isStr method "initialize" then
      pure (rpcResult request_id initResult)
    else if isStr method "tools/list" then
      pure (rpcResult request_id (.obj [("tools", .arr toolsList)]))
    else if isStr method "tools/call" then do
      let tool_name ← pyGet params "name"
      let arguments ← pyGetD params "arguments" (.obj [])
      if isStr tool_name "get_protocols" then do
        let result ← get_protocols fetch
        pure (toolCallResult request_id result)
      else if isStr tool_name "get_protocol_tvl" then do
        let arg ← pyGet arguments "protocol"
        let result ← get_protocol_tvl fetch arg
        pure (toolCallResult request_id result)
      else if isStr tool_name "get_chain_tvl" then do
        let arg ← pyGet arguments "chain"
        let result ← get_chain_tvl fetch arg
        pure (toolCallResult request_id result)
      else if isStr tool_name "get_token_prices" then do
        let arg ← pyGet arguments "token"
        let result ← get_token_prices fetch arg
        pure (toolCallResult request_id result)
      else if isStr tool_name "get_pools" then do
        let result ← get_pools fetch
        pure (toolCallResult request_id result)
      else if isStr tool_name "get_pool_tvl" then do
        let arg ← pyGet arguments "pool"
        let result ← get_pool_tvl fetch arg
        pure (toolCallResult request_id result)
      else
        pure (rpcError request_id (-32601) ("Method not found: " ++ pyFormat tool_name))
    else
      pure (rpcError request_id (-32601) ("Method not found: " ++ pyFormat method))

/-- `handle_mcp_request`: the `try` body plus the top-level `except`
clause, which builds a `-32603` response, recovering `id` via
`body.get("id")` when `request.json()` succeeded (and itself raising —
so no JSON-RPC response at all — when the parsed body is not a dict). -/
def handle_mcp_request (fetch : String → FetchOutcome) (body : Option JsonValue) :
    Except PyError JsonValue :=
  match handle_core fetch body with
  | .ok resp => .ok resp
  | .error e =>
    match body with
    | none => .ok (rpcError .null (-32603) ("Internal error: " ++ pyErrMsg e))
    | some b => do
      let rid ← pyGet b "id"
      pure (rpcError rid (-32603) ("Internal error: " ++ pyErrMsg e))

/-- The six tool names `tools/call` recognizes, in dispatch order. -/
def toolNames : List String :=
  ["get_protocols", "get_protocol_tvl", "get_chain_tvl", "get_token_prices", "get_pools", "get_pool_tvl"]

/-- The four tools whose handler checks a required argument, with the
argument's key in `arguments` and the soft-error message the handler
returns when it is missing or empty. -/
def requiredArgSpec : List (String × String × String) :=
  [("get_protocol_tvl", "protocol", "Protocol name is required"),
   ("get_chain_tvl", "chain", "Chain name is required"),
   ("get_token_prices", "token", "Token identifier is required"),
   ("get_pool_tvl", "pool", "Pool ID is required")]

/-- A well-formed `tools/call` request body. -/
def mkToolCallBody (rid : JsonValue) (tool : String) (args : List (String × JsonValue)) : JsonValue :=
  .obj [("jsonrpc", .str "2.0"), ("id", rid), ("method", .str "tools/call"),
        ("params", .obj [("name", .str tool), ("arguments", .obj args)])]

/-- The JSON array `[0, 1, ..., n-1]`. -/
def natsArr (n : Nat) : List JsonValue := (List.range n).map (fun i => .num (Int.ofNat i))

/-- A stub upstream whose every GET yields HTTP 200 with body `v`. -/
def stubFetchVal (v : JsonValue) : String → FetchOutcome :=
  fun _ => .response 200 (some v)

/-- A stub upstream whose every GET yields the array `[0, ..., n-1]`. -/
def stubFetchArr (n : Nat) : String → FetchOutcome :=
  fun _ => .response 200 (some (.arr (natsArr n)))

/-- A stub upstream whose every GET fails with a connection error. -/
def stubFetchFail : String → FetchOutcome :=
  fun _ => .networkError

/-- A 31-character string, used to exhibit the untruncated `get_pools`
passthrough for non-list upstream values. -/
def longStr : String := "0123456789012345678901234567890"

/-- The end-to-end request of claim C7. -/
def c7RequestBody : JsonValue :=
  .obj [("jsonrpc", .str "2.0"), ("id", .num 1), ("method", .str "tools/call"),
        ("params", .obj [("name", .str "get_chain_tvl"),
                         ("arguments", .obj [("chain", .str "ethereum")])])]

/-- A `tools/call` of `get_protocol_tvl` with a well-formed argument
(used to exercise an array-shaped upstream value). -/
def c10ProtocolBody : JsonValue :=
  .obj [("id", .num 7), ("method", .str "tools/call"),
        ("params", .obj [("name", .str "get_protocol_tvl"),
                         ("arguments", .obj [("protocol", .str "aave")])])]

/-- A `tools/call` of `get_chain_tvl` with a well-formed argument
(used to exercise an object-shaped upstream value). -/
def c10ChainBody : JsonValue :=
  .obj [("id", .num 8), ("method", .str "tools/call"),
        ("params", .obj [("name", .str "get_chain_tvl"),
                         ("arguments", .obj [("chain", .str "ethereum")])])]

/-- A parsed request body whose `params` is the number 5 and which has no
`id` key: `params.get("name")` raises, so the dispatcher takes the
internal-error path with a successfully parsed body. -/
def c5Body : JsonValue := .obj [("method", .str "tools/call"), ("params", .num 5)]

/-- The `tools/call` routing chain of `handle_core` with `tool_name` and
`arguments` already extracted, composed with the top-level `except`
wrapper. `handle_mcp_request` on a parsed dict body is definitionally
equal to this via `dispatchAfterParse` (`handle_obj_unfold`,
`dispatchAfterParse_call_obj`); it exists so that proofs can do case
analysis on one routing layer at a time. -/
def toolRoute (fetch : String → FetchOutcome) (tool_name arguments request_id : JsonValue) :
    Except PyError JsonValue :=
  match (if isStr tool_name "get_protocols" then do
      let result ← get_protocols fetch
      pure (toolCallResult request_id result)
    else if isStr tool_name "get_protocol_tvl" then do
      let arg ← pyGet arguments "protocol"
      let result ← get_protocol_tvl fetch arg
      pure (toolCallResult request_id result)
    else if isStr tool_name "get_chain_tvl" then do
      let arg ← pyGet arguments "chain"
      let result ← get_chain_tvl fetch arg
      pure (toolCallResult request_id result)
    else if isStr tool_name "get_token_prices" then do
      let arg ← pyGet arguments "token"
      let result ← get_token_prices fetch arg
      pure (toolCallResult request_id result)
    else if isStr tool_name "get_pools" then do
      let result ← get_pools fetch
      pure (toolCallResult request_id result)
    else if isStr tool_name "get_pool_tvl" then do
      let arg ← pyGet arguments "pool"
      let result ← get_pool_tvl fetch arg
      pure (toolCallResult request_id result)
    else
      pure (rpcError request_id (-32601) ("Method not found: " ++ pyFormat tool_name))) with
  | .ok resp => .ok resp
  | .error e => .ok (rpcError request_id (-32603) ("Internal error: " ++ pyErrMsg e))

/-- `handle_mcp_request` on a parsed dict body, with `method`, `params`
and `id` already extracted; definitionally equal to the dispatcher
(`handle_obj_unfold`). -/
def dispatchAfterParse (fetch : String → FetchOutcome) (method params request_id : JsonValue) :
    Except PyError JsonValue :=
  match (if isStr method "initialize" then
      (pure (rpcResult request_id initResult) : Except PyError JsonValue)
    else if isStr method "tools/list" then
      pure (rpcResult request_id (.obj [("tools", .arr toolsList)]))
    else if isStr method "tools/call" then do
      let tool_name ← pyGet params "name"
      let arguments ← pyGetD params "arguments" (.obj [])
      if isStr tool_name "get_protocols" then do
        let result ← get_protocols fetch
        pure (toolCallResult request_id result)
      else if isStr tool_name "get_protocol_tvl" then do
        let arg ← pyGet arguments "protocol"
        let result ← get_protocol_tvl fetch arg
        pure (toolCallResult request_id result)
      else if isStr tool_name "get_chain_tvl" then do
        let arg ← pyGet arguments "chain"
        let result ← get_chain_tvl fetch arg
        pure (toolCallResult request_id result)
      else if isStr tool_name "get_token_prices" then do
        let arg ← pyGet arguments "token"
        let result ← get_token_prices fetch arg
        pure (toolCallResult request_id result)
      else if isStr tool_name "get_pools" then do
        let result ← get_pools fetch
        pure (toolCallResult request_id result)
      else if isStr tool_name "get_pool_tvl" then do
        let arg ← pyGet arguments "pool"
        let result ← get_pool_tvl fetch arg
        pure (toolCallResult request_id result)
      else
        pure (rpcError request_id (-32601) ("Method not found: " ++ pyFormat tool_name))
    else
      pure (rpcError request_id (-32601) ("Method not found: " ++ pyFormat method))) with
  | .ok resp => .ok resp
  | .error e => .ok (rpcError request_id (-32603) ("Internal error: " ++ pyErrMsg e))

/-- The `name` field of a tool descriptor, when it is a string. -/
def descName : JsonValue → Option String
  | t =>
    match jfield t "name" with
    | some (.str s) => some s
    | _ => none

/-- A descriptor's `description` field is a non-empty string. -/
def descNonEmpty (t : JsonValue) : Bool :=
  match jfield t "description" with
  | some (.str s) => s != ""
  | _ => false

/-- A descriptor's `inputSchema` is a well-formed object schema declaring
zero required arguments (no `required` key) or exactly one required
argument of type string that is listed among its properties. -/
def schemaOK (t : JsonValue) : Bool :=
  match jfield t "inputSchema" with
  | some (.obj s) =>
    (match jlookup s "type" with
     | some (.str ty) => ty == "object"
     | _ => false) &&
    (match jlookup s "properties" with
     | some (.obj props) =>
       (match jlookup s "required" with
        | none => true
        | some (.arr [.str r]) =>
          (match jlookup props r with
           | some (.obj pr) =>
             (match jlookup pr "type" with
              | some (.str pt) => pt == "string"
              | _ => false)
           | _ => false)
        | _ => false)
     | _ => false)
  | _ => false

/-- A well-formed tool descriptor: non-empty description and well-formed
input schema. -/
def descriptorOK (t : JsonValue) : Bool := descNonEmpty t && schemaOK t

theorem except_bind_ok {e α β : Type} (a : α) (f : α → Except e β) :
    (Except.ok a >>= f) = f a := rfl

theorem except_bind_error {e α β : Type} (x : e) (f : α → Except e β) :
    ((Except.error x : Except e α) >>= f) = .error x := rfl

theorem except_pure_eq {e α : Type} (a : α) : (pure a : Except e α) = .ok a := rfl

theorem jfield_rpcResult_id (rid p : JsonValue) : jfield (rpcResult rid p) "id" = some rid := rfl

theorem jfield_rpcError_id (rid : JsonValue) (c : Int) (m : String) :
    jfield (rpcError rid c m) "id" = some rid := rfl

theorem jfield_toolCallResult_id (rid r : JsonValue) :
    jfield (toolCallResult rid r) "id" = some rid := rfl

/-- The dispatcher on a parsed dict body is the routing function applied
to the body's extracted `method`, `params` and `id`. -/
theorem handle_obj_unfold (fetch : String → FetchOutcome) (b : List (String × JsonValue)) :
    handle_mcp_request fetch (some (.obj b)) =
      dispatchAfterParse fetch ((jlookup b "method").getD .null)
        ((jlookup b "params").getD (.obj [])) ((jlookup b "id").getD .null) := rfl

theorem dispatchAfterParse_init (fetch : String → FetchOutcome) (P I : JsonValue) :
    dispatchAfterParse fetch (.str "initialize") P I = .ok (rpcResult I initResult) := rfl

theorem dispatchAfterParse_list (fetch : String → FetchOutcome) (P I : JsonValue) :
    dispatchAfterParse fetch (.str "tools/list") P I =
      .ok (rpcResult I (.obj [("tools", .arr toolsList)])) := rfl

theorem dispatchAfterParse_call_obj (fetch : String → FetchOutcome)
    (p : List (String × JsonValue)) (I : JsonValue) :
    dispatchAfterParse fetch (.str "tools/call") (.obj p) I =
      toolRoute fetch ((jlookup p "name").getD .null) ((jlookup p "arguments").getD (.obj [])) I := rfl

/-- `tools/call` with a non-dict `params`: `params.get("name")` raises
and the except clause answers `-32603`. -/
theorem dispatchAfterParse_call_nonobj (fetch : String → FetchOutcome) (P I : JsonValue)
    (h : ∀ q : List (String × JsonValue), P ≠ .obj q) :
    dispatchAfterParse fetch (.str "tools/call") P I =
      .ok (rpcError I (-32603)
        ("Internal error: " ++ pyErrMsg (.attributeError (pyTypeName P) "get"))) := by
  cases P with
  | obj q => exact absurd rfl (h q)
  | bool bb => cases bb <;> rfl
  | null => rfl
  | num n => rfl
  | str t => rfl
  | arr xs => rfl

/-- A method other than the three known ones falls through to the
`-32601` response interpolating the method value. -/
theorem dispatchAfterParse_unknown (fetch : String → FetchOutcome) (M P I : JsonValue)
    (h : ∀ s ∈ ["initialize", "tools/list", "tools/call"], M ≠ .str s) :
    dispatchAfterParse fetch M P I =
      .ok (rpcError I (-32601) ("Method not found: " ++ pyFormat M)) := by
  cases M with
  | str t =>
    have ht : ∀ s ∈ ["initialize", "tools/list", "tools/call"], t ≠ s := by
      intro s hs he
      exact h s hs (by rw [he])
    have e1 : (t == "initialize") = false := beq_eq_false_iff_ne.mpr (ht _ (by decide))
    have e2 : (t == "tools/list") = false := beq_eq_false_iff_ne.mpr (ht _ (by decide))
    have e3 : (t == "tools/call") = false := beq_eq_false_iff_ne.mpr (ht _ (by decide))
    simp only [dispatchAfterParse, isStr, e1, e2, e3]
    rfl
  | null => rfl
  | bool bb => cases bb <;> rfl
  | num n => rfl
  | arr xs => rfl
  | obj kvs => rfl

theorem match_bind_wrap (rid : JsonValue) (H : Except PyError JsonValue) :
    (match (H >>= fun result => (pure (toolCallResult rid result) : Except PyError JsonValue)) with
     | .ok resp => (Except.ok resp : Except PyError JsonValue)
     | .error e => .ok (rpcError rid (-32603) ("Internal error: " ++ pyErrMsg e))) =
    (match H with
     | .ok r => .ok (toolCallResult rid r)
     | .error e => .ok (rpcError rid (-32603) ("Internal error: " ++ pyErrMsg e))) := by
  cases H <;> rfl

theorem match_bind2_wrap (rid : JsonValue) (G : Except PyError JsonValue)
    (f : JsonValue → Except PyError JsonValue) :
    (match (G >>= fun arg => (f arg >>= fun result => pure (toolCallResult rid result) : Except PyError JsonValue)) with
     | .ok resp => (Except.ok resp : Except PyError JsonValue)
     | .error e => .ok (rpcError rid (-32603) ("Internal error: " ++ pyErrMsg e))) =
    (match G with
     | .ok arg =>
        match f arg with
        | .ok r => .ok (toolCallResult rid r)
        | .error e => .ok (rpcError rid (-32603) ("Internal error: " ++ pyErrMsg e))
     | .error e => .ok (rpcError rid (-32603) ("Internal error: " ++ pyErrMsg e))) := by
  cases G with
  | error e => rfl
  | ok a => exact match_bind_wrap rid (f a)

theorem toolRoute_protocols (fetch : String → FetchOutcome) (a rid : JsonValue) :
    toolRoute fetch (.str "get_protocols") a rid =
      match get_protocols fetch with
      | .ok r => .ok (toolCallResult rid r)
      | .error e => .ok (rpcError rid (-32603) ("Internal error: " ++ pyErrMsg e)) :=
  match_bind_wrap rid (get_protocols fetch)

theorem toolRoute_ptvl (fetch : String → FetchOutcome) (a rid : JsonValue) :
    toolRoute fetch (.str "get_protocol_tvl") a rid =
      match pyGet a "protocol" with
      | .ok arg =>
        match get_protocol_tvl fetch arg with
        | .ok r => .ok (toolCallResult rid r)
        | .error e => .ok (rpcError rid (-32603) ("Internal error: " ++ pyErrMsg e))
      | .error e => .ok (rpcError rid (-32603) ("Internal error: " ++ pyErrMsg e)) :=
  match_bind2_wrap rid (pyGet a "protocol") (get_protocol_tvl fetch)

theorem toolRoute_ctvl (fetch : String → FetchOutcome) (a rid : JsonValue) :
    toolRoute fetch (.str "get_chain_tvl") a rid =
      match pyGet a "chain" with
      | .ok arg =>
        match get_chain_tvl fetch arg with
        | .ok r => .ok (toolCallResult rid r)
        | .error e => .ok (rpcError rid (-32603) ("Internal error: " ++ pyErrMsg e))
      | .error e => .ok (rpcError rid (-32603) ("Internal error: " ++ pyErrMsg e)) :=
  match_bind2_wrap rid (pyGet a "chain") (get_chain_tvl fetch)

theorem toolRoute_tokens (fetch : String → FetchOutcome) (a rid : JsonValue) :
    toolRoute fetch (.str "get_token_prices") a rid =
      match pyGet a "token" with
      | .ok arg =>
        match get_token_prices fetch arg with
        | .ok r => .ok (toolCallResult rid r)
        | .error e => .ok (rpcError rid (-32603) ("Internal error: " ++ pyErrMsg e))
      | .error e => .ok (rpcError rid (-32603) ("Internal error: " ++ pyErrMsg e)) :=
  match_bind2_wrap rid (pyGet a "token") (get_token_prices fetch)

theorem toolRoute_pools (fetch : String → FetchOutcome) (a rid : JsonValue) :
    toolRoute fetch (.str "get_pools") a rid =
      match get_pools fetch with
      | .ok r => .ok (toolCallResult rid r)
      | .error e => .ok (rpcError rid (-32603) ("Internal error: " ++ pyErrMsg e)) :=
  match_bind_wrap rid (get_pools fetch)

theorem toolRoute_pooltvl (fetch : String → FetchOutcome) (a rid : JsonValue) :
    toolRoute fetch (.str "get_pool_tvl") a rid =
      match pyGet a "pool" with
      | .ok arg =>
        match get_pool_tvl fetch arg with
        | .ok r => .ok (toolCallResult rid r)
        | .error e => .ok (rpcError rid (-32603) ("Internal error: " ++ pyErrMsg e))
      | .error e => .ok (rpcError rid (-32603) ("Internal error: " ++ pyErrMsg e)) :=
  match_bind2_wrap rid (pyGet a "pool") (get_pool_tvl fetch)

/-- A tool name outside the fixed six reaches the `-32601` response
interpolating the name value. -/
theorem toolRoute_unknown (fetch : String → FetchOutcome) (tool_name a rid : JsonValue)
    (h : ∀ s ∈ toolNames, tool_name ≠ .str s) :
    toolRoute fetch tool_name a rid =
      .ok (rpcError rid (-32601) ("Method not found: " ++ pyFormat tool_name)) := by
  cases tool_name with
  | str t =>
    have ht : ∀ s ∈ toolNames, t ≠ s := by
      intro s hs he
      exact h s hs (by rw [he])
    have e1 : (t == "get_protocols") = false := beq_eq_false_iff_ne.mpr (ht _ (by decide))
    have e2 : (t == "get_protocol_tvl") = false := beq_eq_false_iff_ne.mpr (ht _ (by decide))
    have e3 : (t == "get_chain_tvl") = false := beq_eq_false_iff_ne.mpr (ht _ (by decide))
    have e4 : (t == "get_token_prices") = false := beq_eq_false_iff_ne.mpr (ht _ (by decide))
    have e5 : (t == "get_pools") = false := beq_eq_false_iff_ne.mpr (ht _ (by decide))
    have e6 : (t == "get_pool_tvl") = false := beq_eq_false_iff_ne.mpr (ht _ (by decide))
    simp only [toolRoute, isStr, e1, e2, e3, e4, e5, e6]
    rfl
  | null => rfl
  | bool b => cases b <;> rfl
  | num n => rfl
  | arr xs => rfl
  | obj kvs => rfl

theorem toolRoute_id (fetch : String → FetchOutcome) (tool_name a rid resp : JsonValue)
    (h : toolRoute fetch tool_name a rid = .ok resp) :
    jfield resp "id" = some rid := by
  by_cases h1 : tool_name = .str "get_protocols"
  · subst h1; rw [toolRoute_protocols] at h
    rcases hg : get_protocols fetch with e | r <;> rw [hg] at h <;>
      simp only [Except.ok.injEq] at h <;> subst h
    · exact jfield_rpcError_id _ _ _
    · exact jfield_toolCallResult_id _ _
  by_cases h2 : tool_name = .str "get_protocol_tvl"
  · subst h2; rw [toolRoute_ptvl] at h
    rcases ha : pyGet a "protocol" with e | arg <;> rw [ha] at h <;>
      simp only [Except.ok.injEq] at h
    · subst h; exact jfield_rpcError_id _ _ _
    · rcases hg : get_protocol_tvl fetch arg with e2 | r <;> rw [hg] at h <;>
        simp only [Except.ok.injEq] at h <;> subst h
      · exact jfield_rpcError_id _ _ _
      · exact jfield_toolCallResult_id _ _
  by_cases h3 : tool_name = .str "get_chain_tvl"
  · subst h3; rw [toolRoute_ctvl] at h
    rcases ha : pyGet a "chain" with e | arg <;> rw [ha] at h <;>
      simp only [Except.ok.injEq] at h
    · subst h; exact jfield_rpcError_id _ _ _
    · rcases hg : get_chain_tvl fetch arg with e2 | r <;> rw [hg] at h <;>
        simp only [Except.ok.injEq] at h <;> subst h
      · exact jfield_rpcError_id _ _ _
      · exact jfield_toolCallResult_id _ _
  by_cases h4 : tool_name = .str "get_token_prices"
  · subst h4; rw [toolRoute_tokens] at h
    rcases ha : pyGet a "token" with e | arg <;> rw [ha] at h <;>
      simp only [Except.ok.injEq] at h
    · subst h; exact jfield_rpcError_id _ _ _
    · rcases hg : get_token_prices fetch arg with e2 | r <;> rw [hg] at h <;>
        simp only [Except.ok.injEq] at h <;> subst h
      · exact jfield_rpcError_id _ _ _
      · exact jfield_toolCallResult_id _ _
  by_cases h5 : tool_name = .str "get_pools"
  · subst h5; rw [toolRoute_pools] at h
    rcases hg : get_pools fetch with e | r <;> rw [hg] at h <;>
      simp only [Except.ok.injEq] at h <;> subst h
    · exact jfield_rpcError_id _ _ _
    · exact jfield_toolCallResult_id _ _
  by_cases h6 : tool_name = .str "get_pool_tvl"
  · subst h6; rw [toolRoute_pooltvl] at h
    rcases ha : pyGet a "pool" with e | arg <;> rw [ha] at h <;>
      simp only [Except.ok.injEq] at h
    · subst h; exact jfield_rpcError_id _ _ _
    · rcases hg : get_pool_tvl fetch arg with e2 | r <;> rw [hg] at h <;>
        simp only [Except.ok.injEq] at h <;> subst h
      · exact jfield_rpcError_id _ _ _
      · exact jfield_toolCallResult_id _ _
  · have hne : ∀ s ∈ toolNames, tool_name ≠ .str s := by
      intro s hs
      simp only [toolNames, List.mem_cons, List.not_mem_nil, or_false] at hs
      rcases hs with rfl | rfl | rfl | rfl | rfl | rfl <;> assumption
    rw [toolRoute_unknown _ _ _ _ hne] at h
    simp only [Except.ok.injEq] at h; subst h
    exact jfield_rpcError_id _ _ _

theorem dispatchAfterParse_id (fetch : String → FetchOutcome) (M P I resp : JsonValue)
    (h : dispatchAfterParse fetch M P I = .ok resp) :
    jfield resp "id" = some I := by
  by_cases h1 : M = .str "initialize"
  · subst h1; rw [dispatchAfterParse_init] at h
    simp only [Except.ok.injEq] at h; subst h; exact jfield_rpcResult_id _ _
  by_cases h2 : M = .str "tools/list"
  · subst h2; rw [dispatchAfterParse_list] at h
    simp only [Except.ok.injEq] at h; subst h; exact jfield_rpcResult_id _ _
  by_cases h3 : M = .str "tools/call"
  · subst h3
    cases P with
    | obj p =>
      rw [dispatchAfterParse_call_obj] at h
      exact toolRoute_id _ _ _ _ _ h
    | null =>
      rw [dispatchAfterParse_call_nonobj fetch _ I (fun q hq => by cases hq)] at h
      simp only [Except.ok.injEq] at h; subst h; exact jfield_rpcError_id _ _ _
    | bool bb =>
      rw [dispatchAfterParse_call_nonobj fetch _ I (fun q hq => by cases hq)] at h
      simp only [Except.ok.injEq] at h; subst h; exact jfield_rpcError_id _ _ _
    | num n =>
      rw [dispatchAfterParse_call_nonobj fetch _ I (fun q hq => by cases hq)] at h
      simp only [Except.ok.injEq] at h; subst h; exact jfield_rpcError_id _ _ _
    | str t =>
      rw [dispatchAfterParse_call_nonobj fetch _ I (fun q hq => by cases hq)] at h
      simp only [Except.ok.injEq] at h; subst h; exact jfield_rpcError_id _ _ _
    | arr xs =>
      rw [dispatchAfterParse_call_nonobj fetch _ I (fun q hq => by cases hq)] at h
      simp only [Except.ok.injEq] at h; subst h; exact jfield_rpcError_id _ _ _
  · have hne : ∀ s ∈ ["initialize", "tools/list", "tools/call"], M ≠ .str s := by
      intro s hs
      simp only [List.mem_cons, List.not_mem_nil, or_false] at hs
      rcases hs with rfl | rfl | rfl
      · exact h1
      · exact h2
      · exact h3
    rw [dispatchAfterParse_unknown _ _ _ _ hne] at h
    simp only [Except.ok.injEq] at h; subst h
    exact jfield_rpcError_id _ _ _

theorem dispatch_protocols (fetch : String → FetchOutcome) (rid : JsonValue)
    (args : List (String × JsonValue)) :
    handle_mcp_request fetch (some (mkToolCallBody rid "get_protocols" args)) =
      match get_protocols fetch with
      | .ok r => .ok (toolCallResult rid r)
      | .error e => .ok (rpcError rid (-32603) ("Internal error: " ++ pyErrMsg e)) :=
  match_bind_wrap rid (get_protocols fetch)

theorem dispatch_ptvl (fetch : String → FetchOutcome) (rid : JsonValue)
    (args : List (String × JsonValue)) :
    handle_mcp_request fetch (some (mkToolCallBody rid "get_protocol_tvl" args)) =
      match get_protocol_tvl fetch ((jlookup args "protocol").getD .null) with
      | .ok r => .ok (toolCallResult rid r)
      | .error e => .ok (rpcError rid (-32603) ("Internal error: " ++ pyErrMsg e)) :=
  match_bind_wrap rid (get_protocol_tvl fetch ((jlookup args "protocol").getD .null))

theorem dispatch_ctvl (fetch : String → FetchOutcome) (rid : JsonValue)
    (args : List (String × JsonValue)) :
    handle_mcp_request fetch (some (mkToolCallBody rid "get_chain_tvl" args)) =
      match get_chain_tvl fetch ((jlookup args "chain").getD .null) with
      | .ok r => .ok (toolCallResult rid r)
      | .error e => .ok (rpcError rid (-32603) ("Internal error: " ++ pyErrMsg e)) :=
  match_bind_wrap rid (get_chain_tvl fetch ((jlookup args "chain").getD .null))

theorem dispatch_tokens (fetch : String → FetchOutcome) (rid : JsonValue)
    (args : List (String × JsonValue)) :
    handle_mcp_request fetch (some (mkToolCallBody rid "get_token_prices" args)) =
      match get_token_prices fetch ((jlookup args "token").getD .null) with
      | .ok r => .ok (toolCallResult rid r)
      | .error e => .ok (rpcError rid (-32603) ("Internal error: " ++ pyErrMsg e)) :=
  match_bind_wrap rid (get_token_prices fetch ((jlookup args "token").getD .null))

theorem dispatch_pooltvl (fetch : String → FetchOutcome) (rid : JsonValue)
    (args : List (String × JsonValue)) :
    handle_mcp_request fetch (some (mkToolCallBody rid "get_pool_tvl" args)) =
      match get_pool_tvl fetch ((jlookup args "pool").getD .null) with
      | .ok r => .ok (toolCallResult rid r)
      | .error e => .ok (rpcError rid (-32603) ("Internal error: " ++ pyErrMsg e)) :=
  match_bind_wrap rid (get_pool_tvl fetch ((jlookup args "pool").getD .null))

theorem attempt_request_fail (o : FetchOutcome) (ho : isFetchFailure o = true) :
    ∃ e, attempt_request o = .error e := by
  cases o with
  | networkError => exact ⟨.requestError, rfl⟩
  | otherError => exact ⟨.unexpectedError, rfl⟩
  | response status body =>
    by_cases hs : 400 ≤ status
    · exact ⟨.httpStatusError status, by simp only [attempt_request]; rw [if_pos hs]⟩
    · cases body with
      | some v =>
        exfalso
        simp only [isFetchFailure, Bool.or_eq_true, decide_eq_true_eq, Option.isNone_some,
          Bool.false_eq_true, or_false] at ho
        exact hs ho
      | none => exact ⟨.jsonDecodeError, by simp only [attempt_request]; rw [if_neg hs]⟩

theorem make_request_fail (o : FetchOutcome) (ho : isFetchFailure o = true)
    (fetch : String → FetchOutcome) (url : String) (hf : fetch url = o) :
    make_request fetch url = none := by
  unfold make_request
  rw [hf]
  obtain ⟨e, he⟩ := attempt_request_fail o ho
  rw [he]

theorem get_protocols_fail (o : FetchOutcome) (ho : isFetchFailure o = true) :
    get_protocols (fun _ => o) = .ok (.obj [("error", .str "Failed to fetch protocols")]) := by
  have hm := make_request_fail o ho (fun _ => o) (DEFI_API_BASE ++ "/protocols") rfl
  simp only [get_protocols, hm, except_pure_eq]

theorem get_pools_fail (o : FetchOutcome) (ho : isFetchFailure o = true) :
    get_pools (fun _ => o) = .ok (.obj [("error", .str "Failed to fetch pools")]) := by
  have hm := make_request_fail o ho (fun _ => o) (YIELDS_API_BASE ++ "/pools") rfl
  simp only [get_pools, hm, except_pure_eq]

theorem get_protocol_tvl_fail (o : FetchOutcome) (ho : isFetchFailure o = true)
    (p : JsonValue) (hp : truthy p = true) :
    get_protocol_tvl (fun _ => o) p =
      .ok (.obj [("error", .str ("Failed to fetch TVL for protocol: " ++ pyFormat p))]) := by
  have hm := make_request_fail o ho (fun _ => o) (DEFI_API_BASE ++ "/protocol/" ++ pyFormat p) rfl
  simp only [get_protocol_tvl, hp, Bool.not_true, Bool.false_eq_true, if_false, hm, except_pure_eq]

theorem get_chain_tvl_fail (o : FetchOutcome) (ho : isFetchFailure o = true)
    (c : JsonValue) (hc : truthy c = true) :
    get_chain_tvl (fun _ => o) c =
      .ok (.obj [("error", .str ("Failed to fetch TVL for chain: " ++ pyFormat c))]) := by
  have hm := make_request_fail o ho (fun _ => o)
    (DEFI_API_BASE ++ "/v2/historicalChainTvl/" ++ pyFormat c) rfl
  simp only [get_chain_tvl, hc, Bool.not_true, Bool.false_eq_true, if_false, hm, except_pure_eq]

theorem get_token_prices_fail (o : FetchOutcome) (ho : isFetchFailure o = true)
    (t : JsonValue) (ht : truthy t = true) :
    get_token_prices (fun _ => o) t =
      .ok (.obj [("error", .str ("Failed to fetch price for token: " ++ pyFormat t))]) := by
  have hm := make_request_fail o ho (fun _ => o) (COIN_API_BASE ++ "/prices/current/" ++ pyFormat t) rfl
  simp only [get_token_prices, ht, Bool.not_true, Bool.false_eq_true, if_false, hm, except_pure_eq]

theorem get_pool_tvl_fail (o : FetchOutcome) (ho : isFetchFailure o = true)
    (p : JsonValue) (hp : truthy p = true) :
    get_pool_tvl (fun _ => o) p =
      .ok (.obj [("error", .str ("Failed to fetch pool data for: " ++ pyFormat p))]) := by
  have hm := make_request_fail o ho (fun _ => o) (YIELDS_API_BASE ++ "/chart/" ++ pyFormat p) rfl
  simp only [get_pool_tvl, hp, Bool.not_true, Bool.false_eq_true, if_false, hm, except_pure_eq]

theorem c3_part1 (fetch : String → FetchOutcome) (r : JsonValue) (l : List JsonValue)
    (h1 : get_protocols fetch = .ok r) (h2 : jfield r "protocols" = some (.arr l)) :
    l.length ≤ 20 := by
  simp only [get_protocols] at h1
  rcases hm : make_request fetch (DEFI_API_BASE ++ "/protocols") with _ | d <;> rw [hm] at h1
  · simp only [except_pure_eq, Except.ok.injEq] at h1
    subst h1
    exact Option.noConfusion h2
  · cases d with
    | arr xs =>
      simp only [pySlice, except_bind_ok, except_pure_eq, Except.ok.injEq] at h1
      subst h1
      rw [show jfield (JsonValue.obj [("protocols", .arr (xs.take 20))]) "protocols" =
        some (.arr (xs.take 20)) from rfl] at h2
      injection h2 with h2
      injection h2 with h2
      rw [← h2, List.length_take]
      exact min_le_left _ _
    | str t =>
      simp only [pySlice, except_bind_ok, except_pure_eq, Except.ok.injEq] at h1
      subst h1
      rw [show jfield (JsonValue.obj [("protocols", .str (String.mk (t.data.take 20)))]) "protocols" =
        some (.str (String.mk (t.data.take 20))) from rfl] at h2
      injection h2 with h2
      exact JsonValue.noConfusion h2
    | null => exact Except.noConfusion h1
    | bool bb => exact Except.noConfusion h1
    | num n => exact Except.noConfusion h1
    | obj kvs => exact Except.noConfusion h1

theorem c3_part2 (fetch : String → FetchOutcome) (c r : JsonValue) (l : List JsonValue)
    (h1 : get_chain_tvl fetch c = .ok r) (h2 : jfield r "tvl_data" = some (.arr l)) :
    l.length ≤ 30 := by
  simp only [get_chain_tvl] at h1
  split at h1
  · simp only [except_pure_eq, Except.ok.injEq] at h1
    subst h1
    exact Option.noConfusion h2
  · rcases hm : make_request fetch (DEFI_API_BASE ++ "/v2/historicalChainTvl/" ++ pyFormat c)
      with _ | d <;> simp only [hm] at h1
    · simp only [except_pure_eq, Except.ok.injEq] at h1
      subst h1
      exact Option.noConfusion h2
    · cases d with
      | arr xs =>
        simp only [pySlice, except_bind_ok, except_pure_eq, Except.ok.injEq] at h1
        subst h1
        rw [show jfield (JsonValue.obj [("chain", c), ("tvl_data", .arr (xs.take 30))]) "tvl_data" =
          some (.arr (xs.take 30)) from rfl] at h2
        injection h2 with h2
        injection h2 with h2
        rw [← h2, List.length_take]
        exact min_le_left _ _
      | str t =>
        simp only [pySlice, except_bind_ok, except_pure_eq, Except.ok.injEq] at h1
        subst h1
        rw [show jfield (JsonValue.obj [("chain", c), ("tvl_data", .str (String.mk (t.data.take 30)))])
          "tvl_data" = some (.str (String.mk (t.data.take 30))) from rfl] at h2
        injection h2 with h2
        exact JsonValue.noConfusion h2
      | null => exact Except.noConfusion h1
      | bool bb => exact Except.noConfusion h1
      | num n => exact Except.noConfusion h1
      | obj kvs => exact Except.noConfusion h1

theorem c3_part3 (fetch : String → FetchOutcome) (r : JsonValue) (l : List JsonValue)
    (h1 : get_pools fetch = .ok r) (h2 : jfield r "pools" = some (.arr l)) :
    l.length ≤ 30 := by
  simp only [get_pools] at h1
  rcases hm : make_request fetch (YIELDS_API_BASE ++ "/pools") with _ | d <;>
    simp only [hm] at h1
  · simp only [except_pure_eq, Except.ok.injEq] at h1
    subst h1
    exact Option.noConfusion h2
  · cases d with
    | obj kvs =>
      rcases hd : jlookup kvs "data" with _ | d2 <;> simp only [hd] at h1
      · simp only [except_pure_eq, Except.ok.injEq] at h1
        subst h1
        rw [show jfield (JsonValue.obj [("pools", .obj kvs)]) "pools" =
          some (.obj kvs) from rfl] at h2
        injection h2 with h2
        exact JsonValue.noConfusion h2
      · cases d2 with
        | arr xs =>
          simp only [pySlice, except_bind_ok, except_pure_eq, Except.ok.injEq] at h1
          subst h1
          rw [show jfield (JsonValue.obj [("pools", .arr (xs.take 30))]) "pools" =
            some (.arr (xs.take 30)) from rfl] at h2
          injection h2 with h2
          injection h2 with h2
          rw [← h2, List.length_take]
          exact min_le_left _ _
        | str t =>
          simp only [pySlice, except_bind_ok, except_pure_eq, Except.ok.injEq] at h1
          subst h1
          rw [show jfield (JsonValue.obj [("pools", .str (String.mk (t.data.take 30)))]) "pools" =
            some (.str (String.mk (t.data.take 30))) from rfl] at h2
          injection h2 with h2
          exact JsonValue.noConfusion h2
        | null => exact Except.noConfusion h1
        | bool bb => exact Except.noConfusion h1
        | num n => exact Except.noConfusion h1
        | obj kvs2 => exact Except.noConfusion h1
    | arr xs =>
      simp only [except_pure_eq, Except.ok.injEq] at h1
      subst h1
      rw [show jfield (JsonValue.obj [("pools", .arr (xs.take 30))]) "pools" =
        some (.arr (xs.take 30)) from rfl] at h2
      injection h2 with h2
      injection h2 with h2
      rw [← h2, List.length_take]
      exact min_le_left _ _
    | null =>
      simp only [except_pure_eq, Except.ok.injEq] at h1
      subst h1
      rw [show jfield (JsonValue.obj [("pools", JsonValue.null)]) "pools" =
        some JsonValue.null from rfl] at h2
      injection h2 with h2
      exact JsonValue.noConfusion h2
    | bool bb =>
      simp only [except_pure_eq, Except.ok.injEq] at h1
      subst h1
      rw [show jfield (JsonValue.obj [("pools", JsonValue.bool bb)]) "pools" =
        some (JsonValue.bool bb) from rfl] at h2
      injection h2 with h2
      exact JsonValue.noConfusion h2
    | num n =>
      simp only [except_pure_eq, Except.ok.injEq] at h1
      subst h1
      rw [show jfield (JsonValue.obj [("pools", JsonValue.num n)]) "pools" =
        some (JsonValue.num n) from rfl] at h2
      injection h2 with h2
      exact JsonValue.noConfusion h2
    | str t =>
      simp only [except_pure_eq, Except.ok.injEq] at h1
      subst h1
      rw [show jfield (JsonValue.obj [("pools", JsonValue.str t)]) "pools" =
        some (JsonValue.str t) from rfl] at h2
      injection h2 with h2
      exact JsonValue.noConfusion h2

theorem c3_part4 (fetch : String → FetchOutcome) (p r : JsonValue) (l : List JsonValue)
    (h1 : get_pool_tvl fetch p = .ok r)
    (h2 : jfield r "chart_data" = some (.arr l) ∨ jfield r "data" = some (.arr l)) :
    l.length ≤ 30 := by
  simp only [get_pool_tvl] at h1
  split at h1
  · simp only [except_pure_eq, Except.ok.injEq] at h1
    subst h1
    rcases h2 with h2 | h2 <;> exact Option.noConfusion h2
  · rcases hm : make_request fetch (YIELDS_API_BASE ++ "/chart/" ++ pyFormat p)
      with _ | d <;> simp only [hm] at h1
    · simp only [except_pure_eq, Except.ok.injEq] at h1
      subst h1
      rcases h2 with h2 | h2 <;> exact Option.noConfusion h2
    · cases d with
      | obj kvs =>
        rcases hd : jlookup kvs "data" with _ | d2 <;> simp only [hd] at h1
        · simp only [except_pure_eq, Except.ok.injEq] at h1
          subst h1
          rcases h2 with h2 | h2
          · exact Option.noConfusion h2
          · rw [show jfield (JsonValue.obj [("pool_id", p), ("data", .obj kvs)]) "data" =
              some (.obj kvs) from rfl] at h2
            injection h2 with h2
            exact JsonValue.noConfusion h2
        · cases d2 with
          | arr xs =>
            simp only [pySlice, pyGet, except_bind_ok, except_pure_eq, Except.ok.injEq] at h1
            subst h1
            rcases h2 with h2 | h2
            · rw [show jfield (JsonValue.obj [("pool_id", p), ("chart_data", .arr (xs.take 30)),
                ("status", (jlookup kvs "status").getD .null)]) "chart_data" =
                some (.arr (xs.take 30)) from rfl] at h2
              injection h2 with h2
              injection h2 with h2
              rw [← h2, List.length_take]
              exact min_le_left _ _
            · exact Option.noConfusion h2
          | str t =>
            simp only [pySlice, pyGet, except_bind_ok, except_pure_eq, Except.ok.injEq] at h1
            subst h1
            rcases h2 with h2 | h2
            · rw [show jfield (JsonValue.obj [("pool_id", p),
                ("chart_data", .str (String.mk (t.data.take 30))),
                ("status", (jlookup kvs "status").getD .null)]) "chart_data" =
                some (.str (String.mk (t.data.take 30))) from rfl] at h2
              injection h2 with h2
              exact JsonValue.noConfusion h2
            · exact Option.noConfusion h2
          | null => exact Except.noConfusion h1
          | bool bb => exact Except.noConfusion h1
          | num n => exact Except.noConfusion h1
          | obj kvs2 => exact Except.noConfusion h1
      | arr xs =>
        simp only [except_pure_eq, Except.ok.injEq] at h1
        subst h1
        rcases h2 with h2 | h2
        · exact Option.noConfusion h2
        · rw [show jfield (JsonValue.obj [("pool_id", p), ("data", .arr (xs.take 30))]) "data" =
            some (.arr (xs.take 30)) from rfl] at h2
          injection h2 with h2
          injection h2 with h2
          rw [← h2, List.length_take]
          exact min_le_left _ _
      | null =>
        simp only [except_pure_eq, Except.ok.injEq] at h1
        subst h1
        rcases h2 with h2 | h2
        · exact Option.noConfusion h2
        · rw [show jfield (JsonValue.obj [("pool_id", p), ("data", JsonValue.null)]) "data" =
            some JsonValue.null from rfl] at h2
          injection h2 with h2
          exact JsonValue.noConfusion h2
      | bool bb =>
        simp only [except_pure_eq, Except.ok.injEq] at h1
        subst h1
        rcases h2 with h2 | h2
        · exact Option.noConfusion h2
        · rw [show jfield (JsonValue.obj [("pool_id", p), ("data", JsonValue.bool bb)]) "data" =
            some (JsonValue.bool bb) from rfl] at h2
          injection h2 with h2
          exact JsonValue.noConfusion h2
      | num n =>
        simp only [except_pure_eq, Except.ok.injEq] at h1
        subst h1
        rcases h2 with h2 | h2
        · exact Option.noConfusion h2
        · rw [show jfield (JsonValue.obj [("pool_id", p), ("data", JsonValue.num n)]) "data" =
            some (JsonValue.num n) from rfl] at h2
          injection h2 with h2
          exact JsonValue.noConfusion h2
      | str t =>
        simp only [except_pure_eq, Except.ok.injEq] at h1
        subst h1
        rcases h2 with h2 | h2
        · exact Option.noConfusion h2
        · rw [show jfield (JsonValue.obj [("pool_id", p), ("data", JsonValue.str t)]) "data" =
            some (JsonValue.str t) from rfl] at h2
          injection h2 with h2
          exact JsonValue.noConfusion h2


/-- C1: for each of the four tools requiring an argument, a `tools/call`
request whose `arguments` object is present but lacks the required field
(or binds it to the empty string) gets a successful JSON-RPC result —
never an RPC error object — whose handler payload is the tool's
`(error, <field> is required)` object, serialized into
`result.content[0].text`. -/
theorem c1_missing_argument_soft_error (fetch : String → FetchOutcome) (rid : JsonValue)
    (args : List (String × JsonValue)) (tool field msg : String)
    (hmem : (tool, field, msg) ∈ requiredArgSpec)
    (hmiss : jlookup args field = none ∨ jlookup args field = some (.str "")) :
    handle_mcp_request fetch (some (mkToolCallBody rid tool args)) =
      .ok (toolCallResult rid (.obj [("error", .str msg)])) := by
  simp only [requiredArgSpec, List.mem_cons, List.not_mem_nil, or_false, Prod.mk.injEq] at hmem
  rcases hmem with (⟨rfl, rfl, rfl⟩ | ⟨rfl, rfl, rfl⟩ | ⟨rfl, rfl, rfl⟩ | ⟨rfl, rfl, rfl⟩)
  · rw [dispatch_ptvl]; rcases hmiss with hm | hm <;> rw [hm] <;> rfl
  · rw [dispatch_ctvl]; rcases hmiss with hm | hm <;> rw [hm] <;> rfl
  · rw [dispatch_tokens]; rcases hmiss with hm | hm <;> rw [hm] <;> rfl
  · rw [dispatch_pooltvl]; rcases hmiss with hm | hm <;> rw [hm] <;> rfl

/-- Witness for C1: `get_chain_tvl` called with an empty `arguments`
object yields the required-argument soft error as a successful result. -/
theorem c1_witness :
    (("get_chain_tvl", "chain", "Chain name is required") ∈ requiredArgSpec
      ∧ jlookup ([] : List (String × JsonValue)) "chain" = none)
    ∧ handle_mcp_request stubFetchFail (some (mkToolCallBody (.num 1) "get_chain_tvl" [])) =
        .ok (toolCallResult (.num 1) (.obj [("error", .str "Chain name is required")])) :=
  ⟨⟨by decide, rfl⟩,
   c1_missing_argument_soft_error stubFetchFail (.num 1) [] "get_chain_tvl" "chain"
     "Chain name is required" (by decide) (Or.inl rfl)⟩

/-- C2: a `tools/call` whose `params.name` is none of the six tool names
gets the JSON-RPC error object with code `-32601` and message
`Method not found: {name}` (Python `str` of the name value), and any
request whose `method` is none of `initialize` / `tools/list` /
`tools/call` gets code `-32601` with `Method not found: {method}`;
neither path produces a `result`. -/
theorem c2_method_not_found :
    (∀ (fetch : String → FetchOutcome) (b p : List (String × JsonValue)),
      (jlookup b "method").getD .null = .str "tools/call" →
      (jlookup b "params").getD (.obj []) = .obj p →
      (∀ s ∈ toolNames, (jlookup p "name").getD .null ≠ .str s) →
      handle_mcp_request fetch (some (.obj b)) =
        .ok (rpcError ((jlookup b "id").getD .null) (-32601)
          ("Method not found: " ++ pyFormat ((jlookup p "name").getD .null))))
    ∧ (∀ (fetch : String → FetchOutcome) (b : List (String × JsonValue)),
      (∀ s ∈ ["initialize", "tools/list", "tools/call"],
        (jlookup b "method").getD .null ≠ .str s) →
      handle_mcp_request fetch (some (.obj b)) =
        .ok (rpcError ((jlookup b "id").getD .null) (-32601)
          ("Method not found: " ++ pyFormat ((jlookup b "method").getD .null)))) := by
  constructor
  · intro fetch b p hm hp hname
    rw [handle_obj_unfold, hm, hp, dispatchAfterParse_call_obj,
      toolRoute_unknown _ _ _ _ hname]
  · intro fetch b hm
    rw [handle_obj_unfold, dispatchAfterParse_unknown _ _ _ _ hm]

/-- Witness for C2: a `tools/call` with no `name` at all answers
`Method not found: None`, and `method: "unknown_method"` answers
`Method not found: unknown_method`, both as `-32601` errors. -/
theorem c2_witness :
    ((jlookup [("method", JsonValue.str "tools/call")] "method").getD .null = .str "tools/call"
      ∧ handle_mcp_request stubFetchFail (some (.obj [("method", .str "tools/call")])) =
          .ok (rpcError .null (-32601) ("Method not found: None")))
    ∧ handle_mcp_request stubFetchFail
        (some (.obj [("id", .num 4), ("method", .str "unknown_method")])) =
        .ok (rpcError (.num 4) (-32601) ("Method not found: unknown_method")) :=
  ⟨⟨rfl,
    c2_method_not_found.1 stubFetchFail [("method", .str "tools/call")] [] rfl rfl
      (fun _ _ h => JsonValue.noConfusion h)⟩,
   c2_method_not_found.2 stubFetchFail [("id", .num 4), ("method", .str "unknown_method")]
     (by
       intro s hs h
       injection h with h2
       rw [← h2] at hs
       exact absurd hs (by decide))⟩

/-- C3: whatever JSON value a successful fetch returns, the array stored
under `protocols` in a `get_protocols` result has at most 20 elements,
and the arrays stored under `tvl_data`, `pools`, and
`chart_data`/`data` in `get_chain_tvl`, `get_pools` and `get_pool_tvl`
results have at most 30 elements. -/
theorem c3_truncation :
    (∀ (fetch : String → FetchOutcome) (r : JsonValue) (l : List JsonValue),
      get_protocols fetch = .ok r → jfield r "protocols" = some (.arr l) → l.length ≤ 20)
    ∧ (∀ (fetch : String → FetchOutcome) (c r : JsonValue) (l : List JsonValue),
      get_chain_tvl fetch c = .ok r → jfield r "tvl_data" = some (.arr l) → l.length ≤ 30)
    ∧ (∀ (fetch : String → FetchOutcome) (r : JsonValue) (l : List JsonValue),
      get_pools fetch = .ok r → jfield r "pools" = some (.arr l) → l.length ≤ 30)
    ∧ (∀ (fetch : String → FetchOutcome) (p r : JsonValue) (l : List JsonValue),
      get_pool_tvl fetch p = .ok r →
      (jfield r "chart_data" = some (.arr l) ∨ jfield r "data" = some (.arr l)) →
      l.length ≤ 30) :=
  ⟨c3_part1, c3_part2, c3_part3, c3_part4⟩

/-- Witness for C3: a 25-element upstream array is cut to 20 by
`get_protocols`. -/
theorem c3_witness :
    (get_protocols (stubFetchArr 25) = .ok (.obj [("protocols", .arr ((natsArr 25).take 20))])
      ∧ jfield (.obj [("protocols", .arr ((natsArr 25).take 20))]) "protocols" =
          some (.arr ((natsArr 25).take 20)))
    ∧ ((natsArr 25).take 20).length ≤ 20 :=
  ⟨⟨rfl, rfl⟩,
   c3_truncation.1 (stubFetchArr 25) (.obj [("protocols", .arr ((natsArr 25).take 20))])
     ((natsArr 25).take 20) rfl rfl⟩

/-- C4: the `try` body of `make_request` throws on every failure cause
(HTTP status of 400 or more, network error, malformed JSON body, other
exception) and `make_request` catches it and returns `None`; for any
two failure causes and each of the six tools, the handler output is the
same tool-specific `(error, <message>)` object. -/
theorem c4_failure_collapse :
    (∀ o : FetchOutcome, isFetchFailure o = true →
      (∃ e, attempt_request o = .error e)
      ∧ ∀ (fetch : String → FetchOutcome) (url : String), fetch url = o →
          make_request fetch url = none)
    ∧ (∀ o₁ o₂ : FetchOutcome, isFetchFailure o₁ = true → isFetchFailure o₂ = true →
      (get_protocols (fun _ => o₁) = get_protocols (fun _ => o₂)
        ∧ get_protocols (fun _ => o₁) = .ok (.obj [("error", .str "Failed to fetch protocols")]))
      ∧ (get_pools (fun _ => o₁) = get_pools (fun _ => o₂)
        ∧ get_pools (fun _ => o₁) = .ok (.obj [("error", .str "Failed to fetch pools")]))
      ∧ (∀ p : JsonValue, truthy p = true →
        (get_protocol_tvl (fun _ => o₁) p = get_protocol_tvl (fun _ => o₂) p
          ∧ get_protocol_tvl (fun _ => o₁) p =
              .ok (.obj [("error", .str ("Failed to fetch TVL for protocol: " ++ pyFormat p))]))
        ∧ (get_chain_tvl (fun _ => o₁) p = get_chain_tvl (fun _ => o₂) p
          ∧ get_chain_tvl (fun _ => o₁) p =
              .ok (.obj [("error", .str ("Failed to fetch TVL for chain: " ++ pyFormat p))]))
        ∧ (get_token_prices (fun _ => o₁) p = get_token_prices (fun _ => o₂) p
          ∧ get_token_prices (fun _ => o₁) p =
              .ok (.obj [("error", .str ("Failed to fetch price for token: " ++ pyFormat p))]))
        ∧ (get_pool_tvl (fun _ => o₁) p = get_pool_tvl (fun _ => o₂) p
          ∧ get_pool_tvl (fun _ => o₁) p =
              .ok (.obj [("error", .str ("Failed to fetch pool data for: " ++ pyFormat p))])))) := by
  constructor
  · intro o ho
    exact ⟨attempt_request_fail o ho, fun fetch url hf => make_request_fail o ho fetch url hf⟩
  · intro o₁ o₂ h₁ h₂
    refine ⟨⟨?_, get_protocols_fail o₁ h₁⟩, ⟨?_, get_pools_fail o₁ h₁⟩, ?_⟩
    · rw [get_protocols_fail o₁ h₁, get_protocols_fail o₂ h₂]
    · rw [get_pools_fail o₁ h₁, get_pools_fail o₂ h₂]
    · intro p hp
      refine ⟨⟨?_, get_protocol_tvl_fail o₁ h₁ p hp⟩, ⟨?_, get_chain_tvl_fail o₁ h₁ p hp⟩,
        ⟨?_, get_token_prices_fail o₁ h₁ p hp⟩, ⟨?_, get_pool_tvl_fail o₁ h₁ p hp⟩⟩
      · rw [get_protocol_tvl_fail o₁ h₁ p hp, get_protocol_tvl_fail o₂ h₂ p hp]
      · rw [get_chain_tvl_fail o₁ h₁ p hp, get_chain_tvl_fail o₂ h₂ p hp]
      · rw [get_token_prices_fail o₁ h₁ p hp, get_token_prices_fail o₂ h₂ p hp]
      · rw [get_pool_tvl_fail o₁ h₁ p hp, get_pool_tvl_fail o₂ h₂ p hp]

/-- Witness for C4: HTTP 500 and a connection error both collapse to the
same handler outputs. -/
theorem c4_witness :
    (isFetchFailure (.response 500 (some .null)) = true
      ∧ isFetchFailure FetchOutcome.networkError = true
      ∧ truthy (.str "aave") = true)
    ∧ make_request (fun _ => FetchOutcome.networkError) "u" = none
    ∧ get_protocols (fun _ => FetchOutcome.response 500 (some .null)) =
        get_protocols (fun _ => FetchOutcome.networkError)
    ∧ get_protocol_tvl (fun _ => FetchOutcome.response 500 (some .null)) (.str "aave") =
        .ok (.obj [("error", .str ("Failed to fetch TVL for protocol: " ++ pyFormat (.str "aave")))]) :=
  ⟨⟨rfl, rfl, rfl⟩,
   ((c4_failure_collapse.1 FetchOutcome.networkError rfl).2 (fun _ => FetchOutcome.networkError) "u" rfl),
   ((c4_failure_collapse.2 (.response 500 (some .null)) FetchOutcome.networkError rfl rfl).1.1),
   ((c4_failure_collapse.2 (.response 500 (some .null)) FetchOutcome.networkError rfl rfl).2.2
      (.str "aave") rfl).1.2⟩

/-- C5 counterexample: the parsed body `(method tools/call, params 5)`
(no `id` key) drives the dispatcher onto the `-32603` internal-error
path, whose response carries `id = null` even though the body parsed
successfully — refuting "uses null only when the body could not be
parsed". -/
theorem c5_counterexample :
    handle_mcp_request stubFetchFail (some c5Body) =
      .ok (rpcError .null (-32603)
        ("Internal error: " ++ apos ++ "int" ++ apos ++ " object has no attribute " ++ apos ++ "get" ++ apos))
    ∧ jfield (rpcError .null (-32603)
        ("Internal error: " ++ apos ++ "int" ++ apos ++ " object has no attribute " ++ apos ++ "get" ++ apos))
        "id" = some .null
    ∧ c5Body ≠ .null :=
  ⟨rfl, rfl, fun h => JsonValue.noConfusion h⟩

/-- C5 (amended): every JSON-RPC response the dispatcher produces for a
parsed dict body — including the `-32603` internal-error path — carries
`id = body.get("id")`, which is null when the `id` field is absent or
null; when the body could not be parsed at all, the id is null. -/
theorem c5_amended_id_echo :
    (∀ (fetch : String → FetchOutcome) (b : List (String × JsonValue)) (resp : JsonValue),
      handle_mcp_request fetch (some (.obj b)) = .ok resp →
      jfield resp "id" = some ((jlookup b "id").getD .null))
    ∧ (∀ (fetch : String → FetchOutcome) (resp : JsonValue),
      handle_mcp_request fetch none = .ok resp →
      jfield resp "id" = some .null) := by
  constructor
  · intro fetch b resp h
    rw [handle_obj_unfold] at h
    exact dispatchAfterParse_id _ _ _ _ _ h
  · intro fetch resp h
    rw [show handle_mcp_request fetch none =
      .ok (rpcError .null (-32603) ("Internal error: " ++ pyErrMsg .jsonDecodeError)) from rfl] at h
    simp only [Except.ok.injEq] at h
    subst h
    rfl

/-- Witness for C5 (amended): an `initialize` request with id 2 is
answered with id 2. -/
theorem c5_witness :
    handle_mcp_request stubFetchFail
        (some (.obj [("id", .num 2), ("method", .str "initialize")])) =
      .ok (rpcResult (.num 2) initResult)
    ∧ jfield (rpcResult (.num 2) initResult) "id" =
        some ((jlookup [("id", JsonValue.num 2), ("method", JsonValue.str "initialize")] "id").getD .null) :=
  ⟨rfl,
   c5_amended_id_echo.1 stubFetchFail [("id", .num 2), ("method", .str "initialize")]
     (rpcResult (.num 2) initResult) rfl⟩

/-- C6 (amended): on a successful fetch, `get_pools` returns
`(pools, first 30 of obj.data)` when the upstream value is an object
with a `data` key whose value slices without raising; `(pools, first 30
of obj)` when the upstream value is a list; and `(pools, obj)` unchanged
— with no truncation — for every other shape, including objects without
a `data` key and strings. -/
theorem c6_amended_pools_shape :
    (∀ (fetch : String → FetchOutcome) (p : List (String × JsonValue)) (d s : JsonValue),
      make_request fetch (YIELDS_API_BASE ++ "/pools") = some (.obj p) →
      jlookup p "data" = some d → pySlice d 30 = .ok s →
      get_pools fetch = .ok (.obj [("pools", s)]))
    ∧ (∀ (fetch : String → FetchOutcome) (xs : List JsonValue),
      make_request fetch (YIELDS_API_BASE ++ "/pools") = some (.arr xs) →
      get_pools fetch = .ok (.obj [("pools", .arr (xs.take 30))]))
    ∧ (∀ (fetch : String → FetchOutcome) (p : List (String × JsonValue)),
      make_request fetch (YIELDS_API_BASE ++ "/pools") = some (.obj p) →
      jlookup p "data" = none →
      get_pools fetch = .ok (.obj [("pools", .obj p)]))
    ∧ (∀ (fetch : String → FetchOutcome) (v : JsonValue),
      make_request fetch (YIELDS_API_BASE ++ "/pools") = some v →
      (∀ q : List (String × JsonValue), v ≠ .obj q) →
      (∀ xs : List JsonValue, v ≠ .arr xs) →
      get_pools fetch = .ok (.obj [("pools", v)])) := by
  refine ⟨?_, ?_, ?_, ?_⟩
  · intro fetch p d s h1 h2 h3
    simp only [get_pools, h1, h2, h3, except_bind_ok, except_pure_eq]
  · intro fetch xs h1
    simp only [get_pools, h1, except_pure_eq]
  · intro fetch p h1 h2
    simp only [get_pools, h1, h2, except_pure_eq]
  · intro fetch v h1 hobj harr
    cases v with
    | obj q => exact absurd rfl (hobj q)
    | arr xs => exact absurd rfl (harr xs)
    | null => simp only [get_pools, h1, except_pure_eq]
    | bool bb => simp only [get_pools, h1, except_pure_eq]
    | num n => simp only [get_pools, h1, except_pure_eq]
    | str t => simp only [get_pools, h1, except_pure_eq]

/-- Witness for C6 (amended): a 40-element upstream array is cut to its
first 30 by `get_pools`. -/
theorem c6_witness :
    make_request (stubFetchArr 40) (YIELDS_API_BASE ++ "/pools") = some (.arr (natsArr 40))
    ∧ get_pools (stubFetchArr 40) = .ok (.obj [("pools", .arr ((natsArr 40).take 30))]) :=
  ⟨rfl, c6_amended_pools_shape.2.1 (stubFetchArr 40) (natsArr 40) rfl⟩

/-- C8: any `tools/list` request is answered with the static descriptor
table; the table has exactly 6 entries in the fixed order
`get_protocols, get_protocol_tvl, get_chain_tvl, get_token_prices,
get_pools, get_pool_tvl`, each with a non-empty description and a
well-formed `inputSchema` declaring zero or one required string
argument. -/
theorem c8_tools_list :
    (∀ (fetch : String → FetchOutcome) (b : List (String × JsonValue)),
      (jlookup b "method").getD .null = .str "tools/list" →
      handle_mcp_request fetch (some (.obj b)) =
        .ok (rpcResult ((jlookup b "id").getD .null) (.obj [("tools", .arr toolsList)])))
    ∧ toolsList.length = 6
    ∧ toolsList.map descName =
        [some "get_protocols", some "get_protocol_tvl", some "get_chain_tvl",
         some "get_token_prices", some "get_pools", some "get_pool_tvl"]
    ∧ (∀ t ∈ toolsList, descriptorOK t = true) := by
  refine ⟨?_, rfl, rfl, by decide⟩
  intro fetch b hm
  rw [handle_obj_unfold, hm, dispatchAfterParse_list]

/-- Witness for C8: a concrete `tools/list` request with id 9. -/
theorem c8_witness :
    (jlookup [("id", JsonValue.num 9), ("method", JsonValue.str "tools/list")] "method").getD .null =
        .str "tools/list"
    ∧ handle_mcp_request stubFetchFail
        (some (.obj [("id", .num 9), ("method", .str "tools/list")])) =
      .ok (rpcResult (.num 9) (.obj [("tools", .arr toolsList)])) :=
  ⟨rfl, c8_tools_list.1 stubFetchFail [("id", .num 9), ("method", .str "tools/list")] rfl⟩

/-- C9: `get_protocols` is deterministic — two invocations whose
upstream fetch returns the same data for the `/protocols` URL produce
equal handler results, equal dispatcher envelopes, and byte-identical
serializations; nothing besides the fetched data enters the result. -/
theorem c9_deterministic (f g : String → FetchOutcome) (rid : JsonValue)
    (args : List (String × JsonValue))
    (h : f (DEFI_API_BASE ++ "/protocols") = g (DEFI_API_BASE ++ "/protocols")) :
    get_protocols f = get_protocols g
    ∧ handle_mcp_request f (some (mkToolCallBody rid "get_protocols" args)) =
        handle_mcp_request g (some (mkToolCallBody rid "get_protocols" args))
    ∧ Except.map jsonDumps (handle_mcp_request f (some (mkToolCallBody rid "get_protocols" args))) =
        Except.map jsonDumps (handle_mcp_request g (some (mkToolCallBody rid "get_protocols" args))) := by
  have hp : get_protocols f = get_protocols g := by
    simp only [get_protocols, make_request, h]
  have hd : handle_mcp_request f (some (mkToolCallBody rid "get_protocols" args)) =
      handle_mcp_request g (some (mkToolCallBody rid "get_protocols" args)) := by
    rw [dispatch_protocols f rid args, dispatch_protocols g rid args, hp]
  exact ⟨hp, hd, by rw [hd]⟩

/-- Witness for C9: two identical stub upstreams. -/
theorem c9_witness :
    stubFetchFail (DEFI_API_BASE ++ "/protocols") = stubFetchFail (DEFI_API_BASE ++ "/protocols")
    ∧ get_protocols stubFetchFail = get_protocols stubFetchFail :=
  ⟨rfl, (c9_deterministic stubFetchFail stubFetchFail .null [] rfl).1⟩

/-- C6 counterexample: on a successful fetch of a 31-character JSON
string (neither an object with a `data` key nor a list), `get_pools`
returns the string unchanged, not its first 30 characters, so the
claimed "otherwise \x7bpools: first 30 of obj\x7d" fails. -/
theorem c6_counterexample :
    get_pools (stubFetchVal (.str longStr)) = .ok (.obj [("pools", .str longStr)])
    ∧ pySlice (.str longStr) 30 = .ok (.str (String.mk (longStr.data.take 30)))
    ∧ get_pools (stubFetchVal (.str longStr)) ≠
        .ok (.obj [("pools", .str (String.mk (longStr.data.take 30)))]) := by
  refine ⟨rfl, rfl, ?_⟩
  intro h
  rw [show get_pools (stubFetchVal (.str longStr)) = .ok (.obj [("pools", .str longStr)]) from rfl] at h
  simp only [Except.ok.injEq, JsonValue.obj.injEq, List.cons.injEq, Prod.mk.injEq,
    JsonValue.str.injEq, and_true, true_and] at h
  exact absurd h (by decide)

/-- C7: the request `tools/call get_chain_tvl {chain: "ethereum"}` with
id 1, against a stub upstream returning a 40-element array, yields a
successful result whose `content[0].text` is the 2-space-indented
`json.dumps` serialization of `chain`/`tvl_data` with the first 30
elements; the second conjunct pins the 2-space-indented format of
`jsonDumps` itself on a small example. -/
theorem c7_end_to_end :
    handle_mcp_request (stubFetchArr 40) (some c7RequestBody) =
      .ok (toolCallResult (.num 1)
        (.obj [("chain", .str "ethereum"), ("tvl_data", .arr ((natsArr 40).take 30))]))
    ∧ jsonDumps (.obj [("chain", .str "ethereum"), ("tvl_data", .arr [.num 1, .num 2])]) =
      "\x7b\n  \"chain\": \"ethereum\",\n  \"tvl_data\": [\n    1,\n    2\n  ]\n\x7d" :=
  ⟨rfl, rfl⟩

/-- C10: a successful fetch of an unexpected shape makes the handler
raise and the dispatcher answer with the protocol-level error `-32603`:
an array where `get_protocol_tvl` expects an object (AttributeError from
`data.get`), and an object where `get_chain_tvl` expects an array
(TypeError from `data[:30]`). -/
theorem c10_unexpected_shape_internal_error :
    handle_mcp_request (stubFetchVal (.arr [.num 1, .num 2])) (some c10ProtocolBody) =
      .ok (rpcError (.num 7) (-32603)
        ("Internal error: " ++ apos ++ "list" ++ apos ++ " object has no attribute " ++ apos ++ "get" ++ apos))
    ∧ handle_mcp_request (stubFetchVal (.obj [("x", .num 1)])) (some c10ChainBody) =
      .ok (rpcError (.num 8) (-32603)
        ("Internal error: unhashable type: " ++ apos ++ "slice" ++ apos)) :=
  ⟨rfl, rfl⟩
